import Mathlib

/- A shallow embedding of glium's `src/vertex_array_object.rs`: the
vertex-attributes system (a cache of vertex-array objects keyed by the sorted
list of participating buffer ids plus the program id), the `Binder` request
builder, `VertexArrayObject` construction with its attribute validation,
destruction, and the pure type-mapping table `vertex_binding_type_to_gl`.

Device (OpenGL) interaction is modelled as an explicit trace of `GLCall`
values together with the mutable pieces of `CommandContext` state the code
reads and writes (`state.vertex_array`, `state.array_buffer_binding`).
Rust panics (`panic!`, `assert!`, `unreachable!`) are modelled as `Except`
errors carrying the trace of device calls issued before the panic. -/

namespace Glium

/-! ### OpenGL constants used by the embedded code -/

namespace gl

def BYTE : Nat := 0x1400
def UNSIGNED_BYTE : Nat := 0x1401
def SHORT : Nat := 0x1402
def UNSIGNED_SHORT : Nat := 0x1403
def INT : Nat := 0x1404
def UNSIGNED_INT : Nat := 0x1405
def FLOAT : Nat := 0x1406
def DOUBLE : Nat := 0x140A
def FLOAT_MAT2 : Nat := 0x8B5A
def FLOAT_MAT3 : Nat := 0x8B5B
def FLOAT_MAT4 : Nat := 0x8B5C
def FLOAT_MAT2x3 : Nat := 0x8B65
def FLOAT_MAT2x4 : Nat := 0x8B66
def FLOAT_MAT3x2 : Nat := 0x8B67
def FLOAT_MAT3x4 : Nat := 0x8B68
def FLOAT_MAT4x2 : Nat := 0x8B69
def FLOAT_MAT4x3 : Nat := 0x8B6A
def DOUBLE_MAT2 : Nat := 0x8F46
def DOUBLE_MAT3 : Nat := 0x8F47
def DOUBLE_MAT4 : Nat := 0x8F48
def DOUBLE_MAT2x3 : Nat := 0x8F49
def DOUBLE_MAT2x4 : Nat := 0x8F4A
def DOUBLE_MAT3x2 : Nat := 0x8F4B
def DOUBLE_MAT3x4 : Nat := 0x8F4C
def DOUBLE_MAT4x2 : Nat := 0x8F4D
def DOUBLE_MAT4x3 : Nat := 0x8F4E
def DOUBLE_VEC2 : Nat := 0x8FFC
def DOUBLE_VEC3 : Nat := 0x8FFD
def DOUBLE_VEC4 : Nat := 0x8FFE
def ARRAY_BUFFER : Nat := 0x8892
def ELEMENT_ARRAY_BUFFER : Nat := 0x8893

end gl

/-! ### Abstract attribute types

`vertex::AttributeType` is external to the embedded file, but the wildcard-free
`match` in `vertex_binding_type_to_gl` forces it to have exactly the 50
variants named there (a non-exhaustive match does not compile in Rust). -/

inductive AttributeType where
  | I8 | I8I8 | I8I8I8 | I8I8I8I8
  | U8 | U8U8 | U8U8U8 | U8U8U8U8
  | I16 | I16I16 | I16I16I16 | I16I16I16I16
  | U16 | U16U16 | U16U16U16 | U16U16U16U16
  | I32 | I32I32 | I32I32I32 | I32I32I32I32
  | U32 | U32U32 | U32U32U32 | U32U32U32U32
  | F32 | F32F32 | F32F32F32 | F32F32F32F32
  | F32x2x2 | F32x2x3 | F32x2x4
  | F32x3x2 | F32x3x3 | F32x3x4
  | F32x4x2 | F32x4x3 | F32x4x4
  | F64 | F64F64 | F64F64F64 | F64F64F64F64
  | F64x2x2 | F64x2x3 | F64x2x4
  | F64x3x2 | F64x3x3 | F64x3x4
  | F64x4x2 | F64x4x3 | F64x4x4
deriving DecidableEq, Fintype

/-- Modelled from the spec: the component count of an abstract attribute type
(`vertex::AttributeType::get_num_components`, external to the embedded file) —
the vector length for scalar/vector forms, the total element count for matrix
forms. -/
def AttributeType.get_num_components : AttributeType → Nat
  | .I8 => 1 | .I8I8 => 2 | .I8I8I8 => 3 | .I8I8I8I8 => 4
  | .U8 => 1 | .U8U8 => 2 | .U8U8U8 => 3 | .U8U8U8U8 => 4
  | .I16 => 1 | .I16I16 => 2 | .I16I16I16 => 3 | .I16I16I16I16 => 4
  | .U16 => 1 | .U16U16 => 2 | .U16U16U16 => 3 | .U16U16U16U16 => 4
  | .I32 => 1 | .I32I32 => 2 | .I32I32I32 => 3 | .I32I32I32I32 => 4
  | .U32 => 1 | .U32U32 => 2 | .U32U32U32 => 3 | .U32U32U32U32 => 4
  | .F32 => 1 | .F32F32 => 2 | .F32F32F32 => 3 | .F32F32F32F32 => 4
  | .F32x2x2 => 4 | .F32x2x3 => 6 | .F32x2x4 => 8
  | .F32x3x2 => 6 | .F32x3x3 => 9 | .F32x3x4 => 12
  | .F32x4x2 => 8 | .F32x4x3 => 12 | .F32x4x4 => 16
  | .F64 => 1 | .F64F64 => 2 | .F64F64F64 => 3 | .F64F64F64F64 => 4
  | .F64x2x2 => 4 | .F64x2x3 => 6 | .F64x2x4 => 8
  | .F64x3x2 => 6 | .F64x3x3 => 9 | .F64x3x4 => 12
  | .F64x4x2 => 8 | .F64x4x3 => 12 | .F64x4x4 => 16

/-- `vertex_binding_type_to_gl`: the pure mapping from an abstract attribute
type to the `(native numeric format, component count)` pair passed to the
attribute-pointer calls. -/
def vertex_binding_type_to_gl : AttributeType → Nat × Nat
  | .I8 => (gl.BYTE, 1)
  | .I8I8 => (gl.BYTE, 2)
  | .I8I8I8 => (gl.BYTE, 3)
  | .I8I8I8I8 => (gl.BYTE, 4)
  | .U8 => (gl.UNSIGNED_BYTE, 1)
  | .U8U8 => (gl.UNSIGNED_BYTE, 2)
  | .U8U8U8 => (gl.UNSIGNED_BYTE, 3)
  | .U8U8U8U8 => (gl.UNSIGNED_BYTE, 4)
  | .I16 => (gl.SHORT, 1)
  | .I16I16 => (gl.SHORT, 2)
  | .I16I16I16 => (gl.SHORT, 3)
  | .I16I16I16I16 => (gl.SHORT, 4)
  | .U16 => (gl.UNSIGNED_SHORT, 1)
  | .U16U16 => (gl.UNSIGNED_SHORT, 2)
  | .U16U16U16 => (gl.UNSIGNED_SHORT, 3)
  | .U16U16U16U16 => (gl.UNSIGNED_SHORT, 4)
  | .I32 => (gl.INT, 1)
  | .I32I32 => (gl.INT, 2)
  | .I32I32I32 => (gl.INT, 3)
  | .I32I32I32I32 => (gl.INT, 4)
  | .U32 => (gl.UNSIGNED_INT, 1)
  | .U32U32 => (gl.UNSIGNED_INT, 2)
  | .U32U32U32 => (gl.UNSIGNED_INT, 3)
  | .U32U32U32U32 => (gl.UNSIGNED_INT, 4)
  | .F32 => (gl.FLOAT, 1)
  | .F32F32 => (gl.FLOAT, 2)
  | .F32F32F32 => (gl.FLOAT, 3)
  | .F32F32F32F32 => (gl.FLOAT, 4)
  | .F32x2x2 => (gl.FLOAT_MAT2, 1)
  | .F32x2x3 => (gl.FLOAT_MAT2x3, 1)
  | .F32x2x4 => (gl.FLOAT_MAT2x4, 1)
  | .F32x3x2 => (gl.FLOAT_MAT3x2, 1)
  | .F32x3x3 => (gl.FLOAT_MAT3, 1)
  | .F32x3x4 => (gl.FLOAT_MAT3x4, 1)
  | .F32x4x2 => (gl.FLOAT_MAT4x2, 1)
  | .F32x4x3 => (gl.FLOAT_MAT4x3, 1)
  | .F32x4x4 => (gl.FLOAT_MAT4, 1)
  | .F64 => (gl.DOUBLE, 1)
  | .F64F64 => (gl.DOUBLE, 2)
  | .F64F64F64 => (gl.DOUBLE, 3)
  | .F64F64F64F64 => (gl.DOUBLE, 4)
  | .F64x2x2 => (gl.DOUBLE_MAT2, 1)
  | .F64x2x3 => (gl.DOUBLE_MAT2x3, 1)
  | .F64x2x4 => (gl.DOUBLE_MAT2x4, 1)
  | .F64x3x2 => (gl.DOUBLE_MAT3x2, 1)
  | .F64x3x3 => (gl.DOUBLE_MAT3, 1)
  | .F64x3x4 => (gl.DOUBLE_MAT3x4, 1)
  | .F64x4x2 => (gl.DOUBLE_MAT4x2, 1)
  | .F64x4x3 => (gl.DOUBLE_MAT4x3, 1)
  | .F64x4x4 => (gl.DOUBLE_MAT4, 1)

/-! ### Device model: context, capability tiers, call trace -/

inductive Api where
  | Gl | GlEs
deriving DecidableEq

structure Version where
  api : Api
  major : Nat
  minor : Nat
deriving DecidableEq

/-- Modelled from the spec: the ordering on `version::Version` (external to the
embedded file) used by the baseline capability checks — comparable only within
the same API family, then lexicographic on `(major, minor)`. -/
def Version.ge (a b : Version) : Bool :=
  decide (a.api = b.api) &&
    (decide (b.major < a.major) ||
      (decide (a.major = b.major) && decide (b.minor ≤ a.minor)))

structure ExtensionsList where
  gl_arb_vertex_array_object : Bool
  gl_oes_vertex_array_object : Bool
  gl_apple_vertex_array_object : Bool
  gl_arb_vertex_buffer_object : Bool
deriving DecidableEq

structure GLState where
  vertex_array : Nat
  array_buffer_binding : Nat
deriving DecidableEq

/-- The pieces of `context::CommandContext` the embedded code reads and
writes. `next_id` models the driver's supply of fresh object names:
`GenVertexArrays*` returns `next_id` and bumps it. -/
structure CommandContext where
  version : Version
  extensions : ExtensionsList
  state : GLState
  next_id : Nat
deriving DecidableEq

/-- The three equivalent capability tiers providing vertex-array objects. -/
inductive VaoTier where
  | baseline | oes | apple
deriving DecidableEq

/-- The capability tiers providing buffer binding. -/
inductive BufTier where
  | core | arb
deriving DecidableEq

/-- The fixed-priority tier selection shared by `GenVertexArrays*`,
`BindVertexArray*` and `DeleteVertexArrays*`: baseline (GL ≥ 3.0, GLES ≥ 3.0,
or ARB extension), then OES, then APPLE; `none` is the `unreachable!()` arm. -/
def chooseVaoTier (ctxt : CommandContext) : Option VaoTier :=
  if ctxt.version.ge ⟨Api.Gl, 3, 0⟩ || ctxt.version.ge ⟨Api.GlEs, 3, 0⟩ ||
      ctxt.extensions.gl_arb_vertex_array_object then
    some VaoTier.baseline
  else if ctxt.extensions.gl_oes_vertex_array_object then
    some VaoTier.oes
  else if ctxt.extensions.gl_apple_vertex_array_object then
    some VaoTier.apple
  else
    none

/-- Tier selection for `BindBuffer` / `BindBufferARB`: core (GL ≥ 1.5 or
GLES ≥ 2.0), then the ARB vertex-buffer-object extension. -/
def chooseBufTier (ctxt : CommandContext) : Option BufTier :=
  if ctxt.version.ge ⟨Api.Gl, 1, 5⟩ || ctxt.version.ge ⟨Api.GlEs, 2, 0⟩ then
    some BufTier.core
  else if ctxt.extensions.gl_arb_vertex_buffer_object then
    some BufTier.arb
  else
    none

/-- One device call issued by the embedded code. -/
inductive GLCall where
  | genVertexArrays (tier : VaoTier) (id : Nat)
  | bindVertexArray (tier : VaoTier) (id : Nat)
  | deleteVertexArrays (tier : VaoTier) (id : Nat)
  | bindBuffer (tier : BufTier) (target : Nat) (id : Nat)
  | vertexAttribIPointer (location : Nat) (count : Nat) (dataType : Nat)
      (stride : Nat) (offset : Nat)
  | vertexAttribLPointer (location : Nat) (count : Nat) (dataType : Nat)
      (stride : Nat) (offset : Nat)
  | vertexAttribPointer (location : Nat) (count : Nat) (dataType : Nat)
      (normalized : Nat) (stride : Nat) (offset : Nat)
  | vertexAttribDivisor (location : Nat) (divisor : Nat)
  | enableVertexAttribArray (location : Nat)
deriving DecidableEq

/-- A Rust panic raised by the embedded code. -/
inductive VaoPanic where
  | typeMismatch (name : String) (programTy : AttributeType) (vbTy : AttributeType)
  | missingAttribute (name : String)
  | unreachableCode
deriving DecidableEq

/-! ### Program and buffer collaborators (read-only inputs) -/

/-- One program attribute as reflected by the program collaborator:
`{location, ty, size}`. -/
structure Attribute where
  location : Int
  ty : AttributeType
  size : Nat
deriving DecidableEq

/-- The program collaborator: an opaque id (`get_id`) and the declared
attributes (`attributes()`), looked up by name via `get_attribute`. -/
structure Program where
  id : Nat
  attributes : List (String × Attribute)
deriving DecidableEq

def Program.get_id (p : Program) : Nat := p.id

def Program.get_attribute (p : Program) (name : String) : Option Attribute :=
  (p.attributes.find? (fun e => decide (e.1 = name))).map (·.2)

/-- `vertex::VertexFormat`: the per-buffer layout, a sequence of
`(name, byte offset, abstract type)` entries. -/
abbrev VertexFormat := List (String × Nat × AttributeType)

/-- The buffer collaborator (`VertexBufferAny`): opaque id, layout, stride. -/
structure VertexBufferAny where
  id : Nat
  bindings : VertexFormat
  elements_size : Nat
deriving DecidableEq

def VertexBufferAny.get_id (b : VertexBufferAny) : Nat := b.id

def VertexBufferAny.get_bindings (b : VertexBufferAny) : VertexFormat := b.bindings

def VertexBufferAny.get_elements_size (b : VertexBufferAny) : Nat := b.elements_size

/-! ### The VAO resource, the cache, the binder -/

/-- `VertexArrayObject`: a driver handle plus the `destroyed` safety flag. -/
structure VertexArrayObject where
  id : Nat
  destroyed : Bool
deriving DecidableEq

/-- `Drop for VertexArrayObject` runs `assert!(self.destroyed)`: dropping
succeeds exactly when the resource went through `destroy` first. -/
def VertexArrayObject.drop_check (v : VertexArrayObject) : Bool := v.destroyed

/-- A cache key: the sorted list of buffer ids (vertex buffers plus the index
buffer) paired with the program id. -/
abbrev VaoKey := List Nat × Nat

/-- The cache map of `VertexAttributesSystem.vaos`, as an association list
with the most recently inserted entry in front. -/
abbrev VaoMap := List (VaoKey × VertexArrayObject)

/-- `HashMap::get` on the cache. -/
def cacheFind (sys : VaoMap) (key : VaoKey) : Option VertexArrayObject :=
  (sys.find? (fun e => decide (e.1 = key))).map (·.2)

/-- The `Binder` accumulator: program, index buffer id, and the vertex
sources added so far, each `(buffer id, layout, stride, divisor)`. -/
structure Binder where
  program : Program
  element_array_buffer : Nat
  vertex_buffers : List (Nat × VertexFormat × Nat × Option Nat)
deriving DecidableEq

/-- `VertexAttributesSystem::start`: a fresh accumulator, no side effects. -/
def VertexAttributesSystem.start (program : Program) (indices : Nat) : Binder :=
  ⟨program, indices, []⟩

/-- Outcome of `Binder::add`: either the grown accumulator, or a panic
(`assert!(first == 0)`) carrying the accumulator as it stood when the
assertion fired. -/
inductive AddResult where
  | ok (b : Binder)
  | panicked (pending : Binder)
deriving DecidableEq

/-- `Binder::add`: asserts `first == 0` before reading any buffer metadata,
then appends `(id, layout, stride, divisor)` to the pending sources. -/
def Binder.add (b : Binder) (buffer : VertexBufferAny) (first : Nat)
    (divisor : Option Nat) : AddResult :=
  if first = 0 then
    AddResult.ok { b with
      vertex_buffers := b.vertex_buffers ++
        [(buffer.get_id, buffer.get_bindings, buffer.get_elements_size, divisor)] }
  else
    AddResult.panicked b

/-! ### Effectful operations

Each returns `Except (VaoPanic × List GLCall) (… × List GLCall)`: the error
case carries the device calls issued before the panic, the success case the
full trace. -/

/-- `bind_vao`: makes `vao_id` the active VAO, skipping the device call when
the tracked `state.vertex_array` already equals it. -/
def bind_vao (ctxt : CommandContext) (vao_id : Nat) :
    Except (VaoPanic × List GLCall) (CommandContext × List GLCall) :=
  if ctxt.state.vertex_array ≠ vao_id then
    match chooseVaoTier ctxt with
    | some t =>
        Except.ok ({ ctxt with state.vertex_array := vao_id },
                   [GLCall.bindVertexArray t vao_id])
    | none => Except.error (VaoPanic.unreachableCode, [])
  else
    Except.ok (ctxt, [])

/-- The per-entry half of the first validation loop of
`VertexArrayObject::new`: an entry whose name the program does not declare is
skipped; otherwise the component counts must agree and the program attribute's
array size must be 1, else the `panic!` identifying the name and both types. -/
def attribute_check (program : Program) (entry : String × Nat × AttributeType) :
    Option VaoPanic :=
  match program.get_attribute entry.1 with
  | none => none
  | some attrib =>
      if entry.2.2.get_num_components ≠ attrib.ty.get_num_components ∨
          attrib.size ≠ 1 then
        some (VaoPanic.typeMismatch entry.1 attrib.ty entry.2.2)
      else
        none

/-- First validation loop over one buffer's layout: first failing entry. -/
def typecheckFormat (program : Program) (bindings : VertexFormat) : Option VaoPanic :=
  bindings.findSome? (attribute_check program)

/-- First validation loop over all vertex buffers. -/
def typecheckBuffers (program : Program)
    (vertex_buffers : List (Nat × VertexFormat × Nat × Option Nat)) : Option VaoPanic :=
  vertex_buffers.findSome? (fun vb => typecheckFormat program vb.2.1)

/-- Second validation loop of `VertexArrayObject::new`: every program
attribute must appear by name in some buffer's layout, else the
missing-attribute `panic!`. -/
def missing_check (program : Program)
    (vertex_buffers : List (Nat × VertexFormat × Nat × Option Nat)) : Option VaoPanic :=
  program.attributes.findSome? (fun na =>
    if vertex_buffers.any (fun vb => vb.2.1.any (fun e => decide (e.1 = na.1))) then
      none
    else
      some (VaoPanic.missingAttribute na.1))

def isIntegerGlType (t : Nat) : Bool :=
  decide (t = gl.BYTE) || decide (t = gl.UNSIGNED_BYTE) || decide (t = gl.SHORT) ||
  decide (t = gl.UNSIGNED_SHORT) || decide (t = gl.INT) || decide (t = gl.UNSIGNED_INT)

def isDoubleGlType (t : Nat) : Bool :=
  decide (t = gl.DOUBLE) || decide (t = gl.DOUBLE_VEC2) || decide (t = gl.DOUBLE_VEC3) ||
  decide (t = gl.DOUBLE_VEC4) || decide (t = gl.DOUBLE_MAT2) || decide (t = gl.DOUBLE_MAT3) ||
  decide (t = gl.DOUBLE_MAT4) || decide (t = gl.DOUBLE_MAT2x3) || decide (t = gl.DOUBLE_MAT2x4) ||
  decide (t = gl.DOUBLE_MAT3x2) || decide (t = gl.DOUBLE_MAT3x4) ||
  decide (t = gl.DOUBLE_MAT4x2) || decide (t = gl.DOUBLE_MAT4x3)

/-- The attribute-binding calls issued for one layout entry inside the
per-buffer loop of `VertexArrayObject::new`: skipped entirely when the program
does not declare the name or the reported location is the `-1` sentinel;
otherwise the pointer call variant chosen by the program attribute's native
format (integer / double / normalized float), then the optional divisor call,
then the enable call. -/
def entryCalls (program : Program) (stride : Nat) (divisor : Option Nat)
    (entry : String × Nat × AttributeType) : List GLCall :=
  let dt := vertex_binding_type_to_gl entry.2.2
  match program.get_attribute entry.1 with
  | none => []
  | some attrib =>
      let attribute_ty := (vertex_binding_type_to_gl attrib.ty).1
      if attrib.location ≠ -1 then
        let loc := attrib.location.toNat
        (if isIntegerGlType attribute_ty then
          [GLCall.vertexAttribIPointer loc dt.2 dt.1 stride entry.2.1]
        else if isDoubleGlType attribute_ty then
          [GLCall.vertexAttribLPointer loc dt.2 dt.1 stride entry.2.1]
        else
          [GLCall.vertexAttribPointer loc dt.2 dt.1 0 stride entry.2.1]) ++
        (match divisor with
         | some d => [GLCall.vertexAttribDivisor loc d]
         | none => []) ++
        [GLCall.enableVertexAttribArray loc]
      else
        []

/-- Processing of one vertex buffer in `VertexArrayObject::new`: bind it as
the active `ARRAY_BUFFER` only when it differs from the tracked binding
(`unreachable!()` when no buffer tier is available), then the per-entry
attribute calls. -/
def bufferCalls (program : Program) (ctxt : CommandContext)
    (vb : Nat × VertexFormat × Nat × Option Nat) :
    Except (VaoPanic × List GLCall) (CommandContext × List GLCall) :=
  let entries := vb.2.1.flatMap (entryCalls program vb.2.2.1 vb.2.2.2)
  if ctxt.state.array_buffer_binding ≠ vb.1 then
    match chooseBufTier ctxt with
    | some t =>
        Except.ok ({ ctxt with state.array_buffer_binding := vb.1 },
                   GLCall.bindBuffer t gl.ARRAY_BUFFER vb.1 :: entries)
    | none => Except.error (VaoPanic.unreachableCode, [])
  else
    Except.ok (ctxt, entries)

/-- The `for` loop over all vertex buffers in `VertexArrayObject::new`. -/
def buffersCalls (program : Program) :
    CommandContext → List (Nat × VertexFormat × Nat × Option Nat) →
    Except (VaoPanic × List GLCall) (CommandContext × List GLCall)
  | ctxt, [] => Except.ok (ctxt, [])
  | ctxt, vb :: rest =>
      match bufferCalls program ctxt vb with
      | Except.error e => Except.error e
      | Except.ok (ctxt1, calls1) =>
          match buffersCalls program ctxt1 rest with
          | Except.error (p, calls2) => Except.error (p, calls1 ++ calls2)
          | Except.ok (ctxt2, calls2) => Except.ok (ctxt2, calls1 ++ calls2)

/-- `VertexArrayObject::new`: the two validation loops (no device call is
issued before they pass), then handle allocation through the selected
capability tier, activation, the index-buffer bind (kept in the VAO's state),
and the per-buffer attribute binding loop. -/
def VertexArrayObject.new (ctxt : CommandContext)
    (vertex_buffers : List (Nat × VertexFormat × Nat × Option Nat))
    (ib_id : Nat) (program : Program) :
    Except (VaoPanic × List GLCall) (VertexArrayObject × CommandContext × List GLCall) :=
  match typecheckBuffers program vertex_buffers with
  | some p => Except.error (p, [])
  | none =>
  match missing_check program vertex_buffers with
  | some p => Except.error (p, [])
  | none =>
  match chooseVaoTier ctxt with
  | none => Except.error (VaoPanic.unreachableCode, [])
  | some tier =>
  let id := ctxt.next_id
  let ctxt0 : CommandContext := { ctxt with next_id := ctxt.next_id + 1 }
  let gen := [GLCall.genVertexArrays tier id]
  match bind_vao ctxt0 id with
  | Except.error (p, c) => Except.error (p, gen ++ c)
  | Except.ok (ctxt1, calls1) =>
  match chooseBufTier ctxt1 with
  | none => Except.error (VaoPanic.unreachableCode, gen ++ calls1)
  | some bt =>
  let ib := [GLCall.bindBuffer bt gl.ELEMENT_ARRAY_BUFFER ib_id]
  match buffersCalls program ctxt1 vertex_buffers with
  | Except.error (p, calls2) => Except.error (p, gen ++ calls1 ++ ib ++ calls2)
  | Except.ok (ctxt2, calls2) =>
      Except.ok (⟨id, false⟩, ctxt2, gen ++ calls1 ++ ib ++ calls2)

/-- The key computed by `Binder::bind`: all vertex-source buffer ids plus the
index buffer id, sorted, paired with the program id. -/
def bindKey (b : Binder) : VaoKey :=
  (List.insertionSort (· ≤ ·)
     (b.vertex_buffers.map (·.1) ++ [b.element_array_buffer]),
   b.program.get_id)

/-- The result of a successful `Binder::bind`. -/
structure BindOutcome where
  system : VaoMap
  ctxt : CommandContext
  calls : List GLCall
deriving DecidableEq

/-- `Binder::bind` (finalize): compute the key; on a cache hit just activate
the cached VAO; on a miss construct a new `VertexArrayObject`, activate it and
insert it into the cache. -/
def Binder.bind (sys : VaoMap) (ctxt : CommandContext) (b : Binder) :
    Except (VaoPanic × List GLCall) BindOutcome :=
  let key := bindKey b
  match cacheFind sys key with
  | some value =>
      match bind_vao ctxt value.id with
      | Except.error e => Except.error e
      | Except.ok (ctxt1, calls1) => Except.ok ⟨sys, ctxt1, calls1⟩
  | none =>
      match VertexArrayObject.new ctxt b.vertex_buffers b.element_array_buffer
              b.program with
      | Except.error e => Except.error e
      | Except.ok (new_vao, ctxt1, calls1) =>
          match bind_vao ctxt1 new_vao.id with
          | Except.error (p, calls2) => Except.error (p, calls1 ++ calls2)
          | Except.ok (ctxt2, calls2) =>
              Except.ok ⟨(key, new_vao) :: sys, ctxt2, calls1 ++ calls2⟩

/-- `VertexArrayObject::destroy`: set the safety flag, deactivate the VAO if
it is the active one, then delete the handle through the selected tier
(`unreachable!()` when none is available). -/
def VertexArrayObject.destroy (v : VertexArrayObject) (ctxt : CommandContext) :
    Except (VaoPanic × List GLCall) (VertexArrayObject × CommandContext × List GLCall) :=
  let v1 : VertexArrayObject := { v with destroyed := true }
  let unbound :
      Except (VaoPanic × List GLCall) (CommandContext × List GLCall) :=
    if ctxt.state.vertex_array = v1.id then
      match bind_vao ctxt 0 with
      | Except.error e => Except.error e
      | Except.ok (c, calls) =>
          Except.ok ({ c with state.vertex_array := 0 }, calls)
    else
      Except.ok (ctxt, [])
  match unbound with
  | Except.error e => Except.error e
  | Except.ok (ctxt1, calls1) =>
      match chooseVaoTier ctxt1 with
      | some t =>
          Except.ok (v1, ctxt1, calls1 ++ [GLCall.deleteVertexArrays t v1.id])
      | none => Except.error (VaoPanic.unreachableCode, calls1)

/-- Destruction of a list of cache entries, threading the context. -/
def destroyList :
    CommandContext → List (VaoKey × VertexArrayObject) →
    Except (VaoPanic × List GLCall) (CommandContext × List GLCall)
  | ctxt, [] => Except.ok (ctxt, [])
  | ctxt, (_, v) :: rest =>
      match v.destroy ctxt with
      | Except.error e => Except.error e
      | Except.ok (_, ctxt1, calls1) =>
          match destroyList ctxt1 rest with
          | Except.error (p, calls2) => Except.error (p, calls1 ++ calls2)
          | Except.ok (ctxt2, calls2) => Except.ok (ctxt2, calls1 ++ calls2)

/-- `VertexAttributesSystem::purge_if`: remove every entry whose key matches
the condition and destroy each removed VAO. -/
def purge_if (ctxt : CommandContext) (sys : VaoMap) (condition : VaoKey → Bool) :
    Except (VaoPanic × List GLCall) (CommandContext × VaoMap × List GLCall) :=
  let removed := sys.filter (fun e => condition e.1)
  let kept := sys.filter (fun e => ! condition e.1)
  match destroyList ctxt removed with
  | Except.error e => Except.error e
  | Except.ok (ctxt1, calls) => Except.ok (ctxt1, kept, calls)

/-- `VertexAttributesSystem::purge_buffer`: drop every entry whose buffer-id
list contains `id`. -/
def purge_buffer (ctxt : CommandContext) (sys : VaoMap) (id : Nat) :
    Except (VaoPanic × List GLCall) (CommandContext × VaoMap × List GLCall) :=
  purge_if ctxt sys (fun key => key.1.any (fun b => decide (b = id)))

/-- `VertexAttributesSystem::purge_program`: drop every entry whose program
id equals `program`. -/
def purge_program (ctxt : CommandContext) (sys : VaoMap) (program : Nat) :
    Except (VaoPanic × List GLCall) (CommandContext × VaoMap × List GLCall) :=
  purge_if ctxt sys (fun key => decide (key.2 = program))

/-- `VertexAttributesSystem::purge_all` / `cleanup`: destroy everything. -/
def purge_all (ctxt : CommandContext) (sys : VaoMap) :
    Except (VaoPanic × List GLCall) (CommandContext × VaoMap × List GLCall) :=
  match destroyList ctxt sys with
  | Except.error e => Except.error e
  | Except.ok (ctxt1, calls) => Except.ok (ctxt1, [], calls)

/-! ### Theorems -/

/-- C5: `Binder::add` with a nonzero first-element offset fails immediately on
`assert!(first == 0)`; the panic is raised before any buffer metadata is read
and before the source is appended, so the pending request's accumulated vertex
sources are exactly the ones it held before the call. -/
theorem c5_add_nonzero_first_panics (b : Binder) (buffer : VertexBufferAny)
    (first : Nat) (divisor : Option Nat) (h : first ≠ 0) :
    Binder.add b buffer first divisor = AddResult.panicked b := by
  unfold Binder.add
  simp [h]

theorem c5_witness :
    (1 : Nat) ≠ 0 ∧
    Binder.add ⟨⟨7, []⟩, 3, []⟩ ⟨4, [], 8⟩ 1 none = AddResult.panicked ⟨⟨7, []⟩, 3, []⟩ :=
  ⟨by decide, c5_add_nonzero_first_panics ⟨⟨7, []⟩, 3, []⟩ ⟨4, [], 8⟩ 1 none (by decide)⟩

/-- C7 (counterexample): the claim's enumeration of the domain is wrong —
`AttributeType` has exactly 50 inhabitants, not the 58 that
8/16/32/64-bit signed/unsigned integer vectors (32) plus float/double vectors
(8) plus matrices (18) would require, and every native format the table
produces is one of the 8/16/32-bit integer formats, the single/double float
formats, or the float/double matrix formats: no 64-bit integer form exists in
the domain. -/
theorem c7_counterexample :
    Fintype.card AttributeType = 50 ∧ Fintype.card AttributeType ≠ 58 ∧
    ∀ ty : AttributeType, (vertex_binding_type_to_gl ty).1 ∈
      [gl.BYTE, gl.UNSIGNED_BYTE, gl.SHORT, gl.UNSIGNED_SHORT, gl.INT,
       gl.UNSIGNED_INT, gl.FLOAT, gl.DOUBLE, gl.FLOAT_MAT2, gl.FLOAT_MAT3,
       gl.FLOAT_MAT4, gl.FLOAT_MAT2x3, gl.FLOAT_MAT2x4, gl.FLOAT_MAT3x2,
       gl.FLOAT_MAT3x4, gl.FLOAT_MAT4x2, gl.FLOAT_MAT4x3, gl.DOUBLE_MAT2,
       gl.DOUBLE_MAT3, gl.DOUBLE_MAT4, gl.DOUBLE_MAT2x3, gl.DOUBLE_MAT2x4,
       gl.DOUBLE_MAT3x2, gl.DOUBLE_MAT3x4, gl.DOUBLE_MAT4x2, gl.DOUBLE_MAT4x3] := by
  decide

set_option maxRecDepth 4000 in
/-- C7 (amended): `vertex_binding_type_to_gl` is a total pure function with no
fallible path; the domain is exhaustive over 8/16/32-bit signed and unsigned
integers and single and double floats in their 1–4 component vector forms,
plus the 2×2 through 4×4 matrix forms for both float precisions: each of the
8 scalar native formats is hit with each component count 1–4 by exactly one
abstract type, each of the 18 matrix native formats by exactly one abstract
type with component count 1, and with `Fintype.card AttributeType = 50` these
account for the whole domain. -/
theorem c7_type_mapping_total :
    Fintype.card AttributeType = 50 ∧
    (∀ fmt ∈ [gl.BYTE, gl.UNSIGNED_BYTE, gl.SHORT, gl.UNSIGNED_SHORT, gl.INT,
        gl.UNSIGNED_INT, gl.FLOAT, gl.DOUBLE],
      ∀ n ∈ [1, 2, 3, 4],
        ∃ ty : AttributeType, vertex_binding_type_to_gl ty = (fmt, n) ∧
          ∀ ty' : AttributeType, vertex_binding_type_to_gl ty' = (fmt, n) → ty' = ty) ∧
    (∀ fmt ∈ [gl.FLOAT_MAT2, gl.FLOAT_MAT3, gl.FLOAT_MAT4, gl.FLOAT_MAT2x3,
        gl.FLOAT_MAT2x4, gl.FLOAT_MAT3x2, gl.FLOAT_MAT3x4, gl.FLOAT_MAT4x2,
        gl.FLOAT_MAT4x3, gl.DOUBLE_MAT2, gl.DOUBLE_MAT3, gl.DOUBLE_MAT4,
        gl.DOUBLE_MAT2x3, gl.DOUBLE_MAT2x4, gl.DOUBLE_MAT3x2, gl.DOUBLE_MAT3x4,
        gl.DOUBLE_MAT4x2, gl.DOUBLE_MAT4x3],
      ∃ ty : AttributeType, vertex_binding_type_to_gl ty = (fmt, 1) ∧
        ∀ ty' : AttributeType, vertex_binding_type_to_gl ty' = (fmt, 1) → ty' = ty) := by
  decide

theorem c7_witness :
    ∃ ty : AttributeType, vertex_binding_type_to_gl ty = (gl.UNSIGNED_SHORT, 3) ∧
      ∀ ty' : AttributeType, vertex_binding_type_to_gl ty' = (gl.UNSIGNED_SHORT, 3) → ty' = ty :=
  c7_type_mapping_total.2.1 gl.UNSIGNED_SHORT (by decide) 3 (by decide)

instance {e a : Type} [DecidableEq e] [DecidableEq a] :
    DecidableEq (Except e a) := fun x y =>
  match x, y with
  | Except.ok u, Except.ok v =>
      if h : u = v then isTrue (by rw [h])
      else isFalse (by intro he; cases he; exact h rfl)
  | Except.error u, Except.error v =>
      if h : u = v then isTrue (by rw [h])
      else isFalse (by intro he; cases he; exact h rfl)
  | Except.ok _, Except.error _ => isFalse (by intro he; cases he)
  | Except.error _, Except.ok _ => isFalse (by intro he; cases he)

/-- Tier selection only reads the immutable `version` and `extensions`
fields. -/
theorem chooseVaoTier_update (ctxt : CommandContext) (s : GLState) (n : Nat) :
    chooseVaoTier { version := ctxt.version, extensions := ctxt.extensions,
                    state := s, next_id := n } = chooseVaoTier ctxt := rfl

/-- Buffer-tier selection likewise only reads `version` and `extensions`. -/
theorem chooseBufTier_update (ctxt : CommandContext) (s : GLState) (n : Nat) :
    chooseBufTier { version := ctxt.version, extensions := ctxt.extensions,
                    state := s, next_id := n } = chooseBufTier ctxt := rfl

/-- C6: on a cache hit, `Binder::bind` leaves the cache untouched and its only
device interaction is the make-active call on the cached resource's handle —
no attribute-pointer, divisor, enable or buffer-binding call — and even the
make-active call is skipped when the tracked active VAO already equals that
handle. -/
theorem c6_cache_hit_only_bind (sys : VaoMap) (ctxt : CommandContext) (b : Binder)
    (vao : VertexArrayObject) (hhit : cacheFind sys (bindKey b) = some vao) :
    (ctxt.state.vertex_array = vao.id →
      Binder.bind sys ctxt b = Except.ok ⟨sys, ctxt, []⟩) ∧
    (∀ t, chooseVaoTier ctxt = some t → ctxt.state.vertex_array ≠ vao.id →
      Binder.bind sys ctxt b =
        Except.ok ⟨sys, { ctxt with state.vertex_array := vao.id },
                   [GLCall.bindVertexArray t vao.id]⟩) := by
  constructor
  · intro heq
    unfold Binder.bind bind_vao
    simp [hhit, heq]
  · intro t ht hne
    unfold Binder.bind bind_vao
    simp [hhit, hne, ht]

theorem c6_witness :
    Binder.bind [(([1, 2], 7), ⟨9, false⟩)]
      ⟨⟨Api.Gl, 3, 3⟩, ⟨true, false, false, true⟩, ⟨9, 0⟩, 10⟩
      ⟨⟨7, []⟩, 2, [(1, [], 4, none)]⟩ =
    Except.ok ⟨[(([1, 2], 7), ⟨9, false⟩)],
      ⟨⟨Api.Gl, 3, 3⟩, ⟨true, false, false, true⟩, ⟨9, 0⟩, 10⟩, []⟩ :=
  (c6_cache_hit_only_bind [(([1, 2], 7), ⟨9, false⟩)]
    ⟨⟨Api.Gl, 3, 3⟩, ⟨true, false, false, true⟩, ⟨9, 0⟩, 10⟩
    ⟨⟨7, []⟩, 2, [(1, [], 4, none)]⟩ ⟨9, false⟩ (by decide)).1 (by decide)

/-- C8: `destroy` first deactivates the resource exactly when it is the
device's active one, releases the driver handle through the selected
capability tier, and marks the resource not alive, after which the `Drop`
assertion passes; dropping a resource that has not gone through `destroy`
fails the `Drop` assertion instead of silently leaking. -/
theorem c8_destroy_safety (v : VertexArrayObject) (ctxt : CommandContext) :
    (∀ v' ctxt' calls,
      VertexArrayObject.destroy v ctxt = Except.ok (v', ctxt', calls) →
      v' = ⟨v.id, true⟩ ∧ v'.drop_check = true ∧
      (∃ t, GLCall.deleteVertexArrays t v.id ∈ calls) ∧
      (ctxt.state.vertex_array = v.id → ctxt'.state.vertex_array = 0) ∧
      (ctxt.state.vertex_array ≠ v.id → ctxt'.state = ctxt.state ∧
        ∀ t i, GLCall.bindVertexArray t i ∉ calls)) ∧
    (v.destroyed = false → v.drop_check = false) := by
  constructor
  · intro v' ctxt' calls h
    by_cases hact : ctxt.state.vertex_array = v.id
    · by_cases hz : v.id = 0
      · cases ht : chooseVaoTier ctxt with
        | none =>
            exfalso
            simp [VertexArrayObject.destroy, bind_vao, hact, hz, ht,
                  chooseVaoTier_update] at h
        | some t =>
            simp [VertexArrayObject.destroy, bind_vao, hact, hz, ht,
                  chooseVaoTier_update] at h
            obtain ⟨hv, hc, hcalls⟩ := h
            refine ⟨by rw [hz]; exact hv.symm, ?_, ⟨t, ?_⟩, ?_, ?_⟩
            · simp [VertexArrayObject.drop_check, ← hv]
            · simp [← hcalls, hz]
            · intro _; simp [← hc]
            · intro hne; exact absurd hact hne
      · cases ht : chooseVaoTier ctxt with
        | none =>
            exfalso
            simp [VertexArrayObject.destroy, bind_vao, hact, hz, ht,
                  chooseVaoTier_update] at h
        | some t =>
            simp [VertexArrayObject.destroy, bind_vao, hact, hz, ht,
                  chooseVaoTier_update] at h
            obtain ⟨hv, hc, hcalls⟩ := h
            refine ⟨hv.symm ▸ rfl, ?_, ⟨t, ?_⟩, ?_, ?_⟩
            · simp [VertexArrayObject.drop_check, ← hv]
            · simp [← hcalls, ← hv]
            · intro _; simp [← hc]
            · intro hne; exact absurd hact hne
    · cases ht : chooseVaoTier ctxt with
      | none =>
          exfalso
          simp [VertexArrayObject.destroy, bind_vao, hact, ht,
                chooseVaoTier_update] at h
      | some t =>
          simp [VertexArrayObject.destroy, bind_vao, hact, ht,
                chooseVaoTier_update] at h
          obtain ⟨hv, hc, hcalls⟩ := h
          refine ⟨hv.symm ▸ rfl, ?_, ⟨t, ?_⟩, ?_, ?_⟩
          · simp [VertexArrayObject.drop_check, ← hv]
          · simp [← hcalls, ← hv]
          · intro heq; exact absurd heq hact
          · intro _
            refine ⟨by simp [← hc], ?_⟩
            intro t' i hmem
            simp [← hcalls] at hmem
  · intro hf
    simp [VertexArrayObject.drop_check, hf]

theorem c8_witness :
    VertexArrayObject.destroy ⟨9, false⟩
      ⟨⟨Api.Gl, 3, 3⟩, ⟨true, false, false, true⟩, ⟨9, 0⟩, 10⟩ =
      Except.ok (⟨9, true⟩,
        ⟨⟨Api.Gl, 3, 3⟩, ⟨true, false, false, true⟩, ⟨0, 0⟩, 10⟩,
        [GLCall.bindVertexArray VaoTier.baseline 0,
         GLCall.deleteVertexArrays VaoTier.baseline 9]) ∧
    VertexArrayObject.drop_check ⟨9, true⟩ = true ∧
    VertexArrayObject.drop_check ⟨9, false⟩ = false :=
  ⟨by decide,
   ((c8_destroy_safety ⟨9, false⟩
      ⟨⟨Api.Gl, 3, 3⟩, ⟨true, false, false, true⟩, ⟨9, 0⟩, 10⟩).1
      ⟨9, true⟩ ⟨⟨Api.Gl, 3, 3⟩, ⟨true, false, false, true⟩, ⟨0, 0⟩, 10⟩
      [GLCall.bindVertexArray VaoTier.baseline 0,
       GLCall.deleteVertexArrays VaoTier.baseline 9] (by decide)).2.1,
   (c8_destroy_safety ⟨9, false⟩
      ⟨⟨Api.Gl, 3, 3⟩, ⟨true, false, false, true⟩, ⟨9, 0⟩, 10⟩).2 rfl⟩

/-- Recognizer for handle-allocation calls. -/
def isGenCall : GLCall → Bool
  | GLCall.genVertexArrays _ _ => true
  | _ => false

theorem entryCalls_no_gen (program : Program) (stride : Nat) (divisor : Option Nat)
    (entry : String × Nat × AttributeType) :
    (entryCalls program stride divisor entry).filter isGenCall = [] := by
  unfold entryCalls
  cases program.get_attribute entry.1 with
  | none => rfl
  | some a =>
      by_cases hl : a.location ≠ -1
      · cases divisor <;>
          by_cases hi : isIntegerGlType (vertex_binding_type_to_gl a.ty).1 <;>
          by_cases hd : isDoubleGlType (vertex_binding_type_to_gl a.ty).1 <;>
          simp [hl, hi, hd, isGenCall]
      · simp [hl]

theorem flatMap_entryCalls_no_gen (program : Program) (stride : Nat)
    (divisor : Option Nat) (fmt : VertexFormat) :
    (fmt.flatMap (entryCalls program stride divisor)).filter isGenCall = [] := by
  induction fmt with
  | nil => rfl
  | cons e rest ih =>
      simp [List.flatMap_cons, List.filter_append, entryCalls_no_gen, ih]

theorem bufferCalls_no_gen (program : Program) (ctxt : CommandContext)
    (vb : Nat × VertexFormat × Nat × Option Nat) (ctxt' : CommandContext)
    (calls : List GLCall) (h : bufferCalls program ctxt vb = Except.ok (ctxt', calls)) :
    calls.filter isGenCall = [] := by
  unfold bufferCalls at h
  by_cases hne : ctxt.state.array_buffer_binding ≠ vb.1
  · rw [if_pos hne] at h
    cases ht : chooseBufTier ctxt <;> rw [ht] at h
    · cases h
    · cases h
      simp [isGenCall, flatMap_entryCalls_no_gen]
  · rw [if_neg hne] at h
    cases h
    simp [flatMap_entryCalls_no_gen]

theorem buffersCalls_no_gen (program : Program) :
    ∀ (vbs : List (Nat × VertexFormat × Nat × Option Nat)) (ctxt ctxt' : CommandContext)
      (calls : List GLCall),
      buffersCalls program ctxt vbs = Except.ok (ctxt', calls) →
      calls.filter isGenCall = [] := by
  intro vbs
  induction vbs with
  | nil =>
      intro ctxt ctxt' calls h
      unfold buffersCalls at h
      cases h
      rfl
  | cons vb rest ih =>
      intro ctxt ctxt' calls h
      unfold buffersCalls at h
      cases hbc : bufferCalls program ctxt vb <;> rw [hbc] at h
      · cases h
      · rename_i res
        obtain ⟨ctxt1, calls1⟩ := res
        dsimp only at h
        cases hr : buffersCalls program ctxt1 rest <;> rw [hr] at h
        · rename_i e
          obtain ⟨p, calls2⟩ := e
          dsimp only at h
          cases h
        · rename_i res2
          obtain ⟨ctxt2, calls2⟩ := res2
          dsimp only at h
          cases h
          rw [List.filter_append, bufferCalls_no_gen program ctxt vb ctxt1 calls1 hbc,
              ih _ _ _ hr]
          rfl

/-- What a successful `bind_vao` guarantees: only `state.vertex_array`
changes, it ends up equal to the requested id, and the trace is at most the
one make-active call. -/
theorem bind_vao_ok (ctxt : CommandContext) (i : Nat) (c : CommandContext)
    (calls : List GLCall) (h : bind_vao ctxt i = Except.ok (c, calls)) :
    c.version = ctxt.version ∧ c.extensions = ctxt.extensions ∧
    c.next_id = ctxt.next_id ∧
    c.state.array_buffer_binding = ctxt.state.array_buffer_binding ∧
    c.state.vertex_array = i ∧
    (calls = [] ∨ ∃ t, chooseVaoTier ctxt = some t ∧
      calls = [GLCall.bindVertexArray t i]) := by
  unfold bind_vao at h
  by_cases hv : ctxt.state.vertex_array ≠ i
  · rw [if_pos hv] at h
    cases ht : chooseVaoTier ctxt <;> rw [ht] at h
    · cases h
    · cases h
      exact ⟨rfl, rfl, rfl, rfl, rfl, Or.inr ⟨_, rfl, rfl⟩⟩
  · rw [if_neg hv] at h
    cases h
    exact ⟨rfl, rfl, rfl, rfl, not_not.mp hv, Or.inl rfl⟩

theorem bufferCalls_preserves (program : Program) (ctxt : CommandContext)
    (vb : Nat × VertexFormat × Nat × Option Nat) (c : CommandContext)
    (calls : List GLCall) (h : bufferCalls program ctxt vb = Except.ok (c, calls)) :
    c.version = ctxt.version ∧ c.extensions = ctxt.extensions ∧
    c.next_id = ctxt.next_id ∧ c.state.vertex_array = ctxt.state.vertex_array := by
  unfold bufferCalls at h
  by_cases hne : ctxt.state.array_buffer_binding ≠ vb.1
  · rw [if_pos hne] at h
    cases ht : chooseBufTier ctxt <;> rw [ht] at h
    · cases h
    · cases h
      exact ⟨rfl, rfl, rfl, rfl⟩
  · rw [if_neg hne] at h
    cases h
    exact ⟨rfl, rfl, rfl, rfl⟩

theorem buffersCalls_preserves (program : Program) :
    ∀ (vbs : List (Nat × VertexFormat × Nat × Option Nat)) (ctxt c : CommandContext)
      (calls : List GLCall),
      buffersCalls program ctxt vbs = Except.ok (c, calls) →
      c.version = ctxt.version ∧ c.extensions = ctxt.extensions ∧
      c.next_id = ctxt.next_id ∧ c.state.vertex_array = ctxt.state.vertex_array := by
  intro vbs
  induction vbs with
  | nil =>
      intro ctxt c calls h
      unfold buffersCalls at h
      cases h
      exact ⟨rfl, rfl, rfl, rfl⟩
  | cons vb rest ih =>
      intro ctxt c calls h
      unfold buffersCalls at h
      cases hbc : bufferCalls program ctxt vb <;> rw [hbc] at h
      · cases h
      · rename_i res
        obtain ⟨ctxt1, calls1⟩ := res
        dsimp only at h
        cases hr : buffersCalls program ctxt1 rest <;> rw [hr] at h
        · rename_i e
          obtain ⟨p, calls2⟩ := e
          dsimp only at h
          cases h
        · rename_i res2
          obtain ⟨ctxt2, calls2⟩ := res2
          dsimp only at h
          cases h
          obtain ⟨h1, h2, h3, h4⟩ := bufferCalls_preserves program ctxt vb ctxt1 calls1 hbc
          obtain ⟨g1, g2, g3, g4⟩ := ih ctxt1 _ _ hr
          exact ⟨g1.trans h1, g2.trans h2, g3.trans h3, g4.trans h4⟩

/-- The anatomy of a successful `VertexArrayObject::new`: validation passed,
one tier was selected, the handle is the fresh id, and the trace is the
allocation call, the activation calls, the index-buffer bind and the
per-buffer calls, in that order. -/
theorem new_ok_shape (ctxt : CommandContext)
    (vbs : List (Nat × VertexFormat × Nat × Option Nat)) (ib : Nat)
    (program : Program) (vao : VertexArrayObject) (ctxt2 : CommandContext)
    (calls : List GLCall)
    (h : VertexArrayObject.new ctxt vbs ib program = Except.ok (vao, ctxt2, calls)) :
    typecheckBuffers program vbs = none ∧ missing_check program vbs = none ∧
    ∃ t c1 calls1 bt c2 calls2,
      chooseVaoTier ctxt = some t ∧
      bind_vao { ctxt with next_id := ctxt.next_id + 1 } ctxt.next_id =
        Except.ok (c1, calls1) ∧
      chooseBufTier c1 = some bt ∧
      buffersCalls program c1 vbs = Except.ok (c2, calls2) ∧
      vao = ⟨ctxt.next_id, false⟩ ∧ ctxt2 = c2 ∧
      calls = GLCall.genVertexArrays t ctxt.next_id ::
        (calls1 ++ (GLCall.bindBuffer bt gl.ELEMENT_ARRAY_BUFFER ib :: calls2)) := by
  unfold VertexArrayObject.new at h
  cases htc : typecheckBuffers program vbs <;> rw [htc] at h
  case some => dsimp only at h; cases h
  cases hmc : missing_check program vbs <;> rw [hmc] at h
  case some => dsimp only at h; cases h
  cases hvt : chooseVaoTier ctxt <;> rw [hvt] at h
  case none => dsimp only at h; cases h
  rename_i t
  dsimp only at h
  cases hbv : bind_vao { ctxt with next_id := ctxt.next_id + 1 } ctxt.next_id <;>
    rw [hbv] at h
  case error e =>
    obtain ⟨p, c⟩ := e
    dsimp only at h
    cases h
  rename_i res
  obtain ⟨c1, calls1⟩ := res
  dsimp only at h
  cases hbt : chooseBufTier c1 <;> rw [hbt] at h
  case none => dsimp only at h; cases h
  rename_i bt
  dsimp only at h
  cases hbc : buffersCalls program c1 vbs <;> rw [hbc] at h
  case error e =>
    obtain ⟨p, c⟩ := e
    dsimp only at h
    cases h
  rename_i res2
  obtain ⟨c2, calls2⟩ := res2
  dsimp only at h
  cases h
  exact ⟨rfl, rfl, t, c1, calls1, bt, ctxt2, calls2, rfl, rfl, hbt, hbc, rfl, rfl,
         by simp⟩

/-- C9: once validation passes, `VertexArrayObject::new` allocates the driver
handle through exactly the one capability tier picked by the fixed priority
order (a single `GenVertexArrays` call, carrying that tier, in the whole
trace), and when no tier is available construction hits `unreachable!()`
before any device call instead of returning a handle. -/
theorem c9_capability_tier (ctxt : CommandContext)
    (vbs : List (Nat × VertexFormat × Nat × Option Nat)) (ib : Nat) (program : Program)
    (htc : typecheckBuffers program vbs = none)
    (hmc : missing_check program vbs = none) :
    (chooseVaoTier ctxt = none →
      VertexArrayObject.new ctxt vbs ib program =
        Except.error (VaoPanic.unreachableCode, [])) ∧
    (∀ t, chooseVaoTier ctxt = some t →
      ∀ vao ctxt' calls,
        VertexArrayObject.new ctxt vbs ib program = Except.ok (vao, ctxt', calls) →
        vao.id = ctxt.next_id ∧
        calls.filter isGenCall = [GLCall.genVertexArrays t ctxt.next_id]) := by
  constructor
  · intro hnone
    unfold VertexArrayObject.new
    rw [htc, hmc, hnone]
  · intro t ht vao ctxt' calls h
    obtain ⟨-, -, t', c1, calls1, bt, c2, calls2, hvt, hbv, hbt, hbc, hvao, -, hcalls⟩ :=
      new_ok_shape ctxt vbs ib program vao ctxt' calls h
    rw [ht] at hvt
    cases hvt
    constructor
    · rw [hvao]
    · subst hcalls
      obtain ⟨-, -, -, -, -, hb⟩ :=
        bind_vao_ok { ctxt with next_id := ctxt.next_id + 1 } ctxt.next_id c1 calls1 hbv
      have h2 := buffersCalls_no_gen program vbs c1 c2 calls2 hbc
      cases hb with
      | inl hnil =>
          subst hnil
          simp [isGenCall, List.filter_append, h2]
      | inr hone =>
          obtain ⟨tb, -, hcal⟩ := hone
          subst hcal
          simp [isGenCall, List.filter_append, h2]

theorem c9_witness :
    (⟨10, false⟩ : VertexArrayObject).id = 10 ∧
    ([GLCall.genVertexArrays VaoTier.baseline 10,
      GLCall.bindVertexArray VaoTier.baseline 10,
      GLCall.bindBuffer BufTier.core gl.ELEMENT_ARRAY_BUFFER 2,
      GLCall.bindBuffer BufTier.core gl.ARRAY_BUFFER 1].filter isGenCall =
      [GLCall.genVertexArrays VaoTier.baseline 10]) :=
  (c9_capability_tier
      ⟨⟨Api.Gl, 3, 3⟩, ⟨true, false, false, true⟩, ⟨0, 0⟩, 10⟩
      [(1, [], 4, none)] 2 ⟨7, []⟩ rfl rfl).2
      VaoTier.baseline (by decide) ⟨10, false⟩
      ⟨⟨Api.Gl, 3, 3⟩, ⟨true, false, false, true⟩, ⟨10, 1⟩, 11⟩
      [GLCall.genVertexArrays VaoTier.baseline 10,
       GLCall.bindVertexArray VaoTier.baseline 10,
       GLCall.bindBuffer BufTier.core gl.ELEMENT_ARRAY_BUFFER 2,
       GLCall.bindBuffer BufTier.core gl.ARRAY_BUFFER 1] (by decide)

theorem attribute_check_some (program : Program) (entry : String × Nat × AttributeType)
    (p : VaoPanic) (h : attribute_check program entry = some p) :
    ∃ a, program.get_attribute entry.1 = some a ∧
      (entry.2.2.get_num_components ≠ a.ty.get_num_components ∨ a.size ≠ 1) ∧
      p = VaoPanic.typeMismatch entry.1 a.ty entry.2.2 := by
  unfold attribute_check at h
  cases hga : program.get_attribute entry.1 <;> rw [hga] at h <;> dsimp only at h
  · cases h
  · rename_i a
    by_cases hcond : entry.2.2.get_num_components ≠ a.ty.get_num_components ∨ a.size ≠ 1
    · rw [if_pos hcond] at h
      cases h
      exact ⟨a, rfl, hcond, rfl⟩
    · rw [if_neg hcond] at h
      cases h

theorem attribute_check_none (program : Program) (entry : String × Nat × AttributeType) :
    attribute_check program entry = none ↔
      ∀ a, program.get_attribute entry.1 = some a →
        entry.2.2.get_num_components = a.ty.get_num_components ∧ a.size = 1 := by
  unfold attribute_check
  cases hga : program.get_attribute entry.1
  · simp
  · rename_i a
    dsimp only
    constructor
    · intro h a' ha'
      cases ha'
      by_cases hcond : entry.2.2.get_num_components ≠ a.ty.get_num_components ∨ a.size ≠ 1
      · rw [if_pos hcond] at h
        cases h
      · push_neg at hcond
        exact hcond
    · intro h
      rw [if_neg]
      push_neg
      exact h a rfl

theorem missing_check_finds (attrs : List (String × Attribute))
    (vbs : List (Nat × VertexFormat × Nat × Option Nat))
    (hm : ∃ na ∈ attrs, ∀ vb ∈ vbs, ∀ e ∈ vb.2.1, e.1 ≠ na.1) :
    ∃ name, (∃ a, (name, a) ∈ attrs ∧ ∀ vb ∈ vbs, ∀ e ∈ vb.2.1, e.1 ≠ name) ∧
      attrs.findSome? (fun na =>
        if vbs.any (fun vb => vb.2.1.any (fun e => decide (e.1 = na.1))) then none
        else some (VaoPanic.missingAttribute na.1)) =
        some (VaoPanic.missingAttribute name) := by
  induction attrs with
  | nil =>
      obtain ⟨na, h, -⟩ := hm
      cases h
  | cons na rest ih =>
      by_cases hc : vbs.any (fun vb => vb.2.1.any (fun e => decide (e.1 = na.1))) = true
      · have hrest : ∃ nb ∈ rest, ∀ vb ∈ vbs, ∀ e ∈ vb.2.1, e.1 ≠ nb.1 := by
          obtain ⟨nb, hnb, hmiss⟩ := hm
          rcases List.mem_cons.mp hnb with heq | hmem
          · exfalso
            rw [List.any_eq_true] at hc
            obtain ⟨vb, hvb, hany⟩ := hc
            rw [List.any_eq_true] at hany
            obtain ⟨e, he, hdec⟩ := hany
            rw [decide_eq_true_iff] at hdec
            exact hmiss vb hvb e he (by rw [heq]; exact hdec)
          · exact ⟨nb, hmem, hmiss⟩
        obtain ⟨name, ⟨a, hmem, hmiss⟩, hfind⟩ := ih hrest
        refine ⟨name, ⟨a, List.mem_cons_of_mem na hmem, hmiss⟩, ?_⟩
        rw [List.findSome?_cons, if_pos hc]
        exact hfind
      · refine ⟨na.1, ⟨na.2, by simp, ?_⟩, ?_⟩
        · intro vb hvb e he heq
          apply hc
          rw [List.any_eq_true]
          refine ⟨vb, hvb, ?_⟩
          rw [List.any_eq_true]
          exact ⟨e, he, by simp [heq]⟩
        · rw [List.findSome?_cons, if_neg hc]

/-- C3: when the type check (which the code runs first) passes and the program
declares an attribute name that no supplied vertex source's layout contains,
`VertexArrayObject::new` fails with the missing-attribute panic naming a
missing attribute, and the panic is raised before any device call (empty
trace). -/
theorem c3_missing_attribute (ctxt : CommandContext)
    (vbs : List (Nat × VertexFormat × Nat × Option Nat)) (ib : Nat) (program : Program)
    (htc : typecheckBuffers program vbs = none)
    (hmiss : ∃ na ∈ program.attributes, ∀ vb ∈ vbs, ∀ e ∈ vb.2.1, e.1 ≠ na.1) :
    ∃ name,
      (∃ a, (name, a) ∈ program.attributes ∧ ∀ vb ∈ vbs, ∀ e ∈ vb.2.1, e.1 ≠ name) ∧
      VertexArrayObject.new ctxt vbs ib program =
        Except.error (VaoPanic.missingAttribute name, []) := by
  obtain ⟨name, hin, hfind⟩ := missing_check_finds program.attributes vbs hmiss
  refine ⟨name, hin, ?_⟩
  unfold VertexArrayObject.new missing_check
  rw [htc, hfind]

theorem c3_witness :
    ∃ name,
      (∃ a, (name, a) ∈ ([("normal", ⟨0, AttributeType.F32F32F32, 1⟩)] :
          List (String × Attribute)) ∧
        ∀ vb ∈ [((1 : Nat), [("position", (0 : Nat), AttributeType.F32F32F32)],
            (12 : Nat), (none : Option Nat))],
          ∀ e ∈ vb.2.1, e.1 ≠ name) ∧
      VertexArrayObject.new ⟨⟨Api.Gl, 3, 3⟩, ⟨true, false, false, true⟩, ⟨0, 0⟩, 10⟩
          [(1, [("position", 0, AttributeType.F32F32F32)], 12, none)] 2
          ⟨7, [("normal", ⟨0, AttributeType.F32F32F32, 1⟩)]⟩ =
        Except.error (VaoPanic.missingAttribute name, []) :=
  c3_missing_attribute ⟨⟨Api.Gl, 3, 3⟩, ⟨true, false, false, true⟩, ⟨0, 0⟩, 10⟩
    [(1, [("position", 0, AttributeType.F32F32F32)], 12, none)] 2
    ⟨7, [("normal", ⟨0, AttributeType.F32F32F32, 1⟩)]⟩ (by decide) (by decide)

/-- C4: for every layout entry whose name the program also declares, a
component-count mismatch or a program array size other than 1 makes
`VertexArrayObject::new` fail, before any device call, with the panic naming
the attribute and both types; and the type check passes exactly when every
such shared attribute has matching component counts and array size 1. -/
theorem c4_type_mismatch (ctxt : CommandContext)
    (vbs : List (Nat × VertexFormat × Nat × Option Nat)) (ib : Nat) (program : Program) :
    (∀ p, typecheckBuffers program vbs = some p →
      VertexArrayObject.new ctxt vbs ib program = Except.error (p, []) ∧
      ∃ name off ty a, program.get_attribute name = some a ∧
        (∃ vb ∈ vbs, (name, off, ty) ∈ vb.2.1) ∧
        (ty.get_num_components ≠ a.ty.get_num_components ∨ a.size ≠ 1) ∧
        p = VaoPanic.typeMismatch name a.ty ty) ∧
    (typecheckBuffers program vbs = none ↔
      ∀ vb ∈ vbs, ∀ e ∈ vb.2.1, ∀ a, program.get_attribute e.1 = some a →
        e.2.2.get_num_components = a.ty.get_num_components ∧ a.size = 1) := by
  constructor
  · intro p hp
    constructor
    · unfold VertexArrayObject.new
      rw [hp]
    · unfold typecheckBuffers at hp
      obtain ⟨vb, hvb, hf⟩ := List.exists_of_findSome?_eq_some hp
      unfold typecheckFormat at hf
      obtain ⟨e, he, ha⟩ := List.exists_of_findSome?_eq_some hf
      obtain ⟨a, hga, hcond, hpeq⟩ := attribute_check_some program e p ha
      exact ⟨e.1, e.2.1, e.2.2, a, hga, ⟨vb, hvb, he⟩, hcond, hpeq⟩
  · unfold typecheckBuffers typecheckFormat
    rw [List.findSome?_eq_none_iff]
    constructor
    · intro h vb hvb e he a hga
      have h2 := h vb hvb
      rw [List.findSome?_eq_none_iff] at h2
      exact (attribute_check_none program e).mp (h2 e he) a hga
    · intro h vb hvb
      rw [List.findSome?_eq_none_iff]
      intro e he
      exact (attribute_check_none program e).mpr (fun a hga => h vb hvb e he a hga)

theorem c4_witness :
    VertexArrayObject.new ⟨⟨Api.Gl, 3, 3⟩, ⟨true, false, false, true⟩, ⟨0, 0⟩, 10⟩
        [(1, [("pos", 0, AttributeType.F32F32)], 8, none)] 2
        ⟨7, [("pos", ⟨0, AttributeType.F32F32F32, 1⟩)]⟩ =
      Except.error
        (VaoPanic.typeMismatch "pos" AttributeType.F32F32F32 AttributeType.F32F32, []) ∧
    ∃ name off ty a,
      Program.get_attribute ⟨7, [("pos", ⟨0, AttributeType.F32F32F32, 1⟩)]⟩ name = some a ∧
      (∃ vb ∈ [((1 : Nat), [("pos", (0 : Nat), AttributeType.F32F32)], (8 : Nat),
          (none : Option Nat))], (name, off, ty) ∈ vb.2.1) ∧
      (ty.get_num_components ≠ a.ty.get_num_components ∨ a.size ≠ 1) ∧
      VaoPanic.typeMismatch "pos" AttributeType.F32F32F32 AttributeType.F32F32 =
        VaoPanic.typeMismatch name a.ty ty :=
  (c4_type_mismatch ⟨⟨Api.Gl, 3, 3⟩, ⟨true, false, false, true⟩, ⟨0, 0⟩, 10⟩
      [(1, [("pos", 0, AttributeType.F32F32)], 8, none)] 2
      ⟨7, [("pos", ⟨0, AttributeType.F32F32F32, 1⟩)]⟩).1
    (VaoPanic.typeMismatch "pos" AttributeType.F32F32F32 AttributeType.F32F32) (by decide)

theorem insertionSort_eq_of_perm {l1 l2 : List Nat} (h : l1.Perm l2) :
    List.insertionSort (· ≤ ·) l1 = List.insertionSort (· ≤ ·) l2 :=
  List.eq_of_perm_of_sorted
    ((List.perm_insertionSort _ _).trans (h.trans (List.perm_insertionSort _ _).symm))
    (List.sorted_insertionSort _ _) (List.sorted_insertionSort _ _)

theorem cacheFind_cons_self (sys : VaoMap) (key : VaoKey) (v : VertexArrayObject) :
    cacheFind ((key, v) :: sys) key = some v := by
  simp [cacheFind, List.find?_cons]

/-- Every successful `Binder::bind` leaves the computed key in the cache and
the cached resource's handle active. -/
theorem bind_ok_cached (sys : VaoMap) (ctxt : CommandContext) (b : Binder)
    (o : BindOutcome) (h : Binder.bind sys ctxt b = Except.ok o) :
    ∃ vao, cacheFind o.system (bindKey b) = some vao ∧
      o.ctxt.state.vertex_array = vao.id := by
  unfold Binder.bind at h
  dsimp only at h
  cases hcf : cacheFind sys (bindKey b) <;> rw [hcf] at h <;> dsimp only at h
  · cases hnew : VertexArrayObject.new ctxt b.vertex_buffers b.element_array_buffer
        b.program <;> rw [hnew] at h
    · cases h
    · rename_i res
      obtain ⟨vao, ctxt1, calls1⟩ := res
      dsimp only at h
      cases hbv : bind_vao ctxt1 vao.id <;> rw [hbv] at h
      · rename_i e
        obtain ⟨p, c⟩ := e
        dsimp only at h
        cases h
      · rename_i res2
        obtain ⟨ctxt2, calls2⟩ := res2
        dsimp only at h
        cases h
        exact ⟨vao, cacheFind_cons_self sys (bindKey b) vao,
               (bind_vao_ok ctxt1 vao.id ctxt2 calls2 hbv).2.2.2.2.1⟩
  · rename_i vao
    cases hbv : bind_vao ctxt vao.id <;> rw [hbv] at h
    · cases h
    · rename_i res
      obtain ⟨ctxt1, calls1⟩ := res
      dsimp only at h
      cases h
      exact ⟨vao, hcf, (bind_vao_ok ctxt vao.id ctxt1 calls1 hbv).2.2.2.2.1⟩

/-- C1: two binding requests with the same program identity, the same index
buffer id and the same vertex-buffer ids added in any order compute the same
cache key (sorted buffer ids plus index buffer, paired with the program id);
consequently after any successful finalize of the first request, finalizing
the second reuses the cached Binding-Set Resource — the cache map is
unchanged and no construction or device call happens at all. -/
theorem c1_key_and_reuse (sys : VaoMap) (ctxt : CommandContext) (b1 b2 : Binder)
    (hperm : (b1.vertex_buffers.map (·.1)).Perm (b2.vertex_buffers.map (·.1)))
    (hib : b1.element_array_buffer = b2.element_array_buffer)
    (hprog : b1.program.get_id = b2.program.get_id) :
    bindKey b1 = bindKey b2 ∧
    ∀ o : BindOutcome, Binder.bind sys ctxt b1 = Except.ok o →
      Binder.bind o.system o.ctxt b2 = Except.ok ⟨o.system, o.ctxt, []⟩ := by
  have hkey : bindKey b1 = bindKey b2 := by
    unfold bindKey
    rw [hprog, hib]
    exact congrArg (fun l => (l, b2.program.get_id))
      (insertionSort_eq_of_perm (hperm.append_right [b2.element_array_buffer]))
  refine ⟨hkey, ?_⟩
  intro o ho
  obtain ⟨vao, hfind, hstate⟩ := bind_ok_cached sys ctxt b1 o ho
  rw [hkey] at hfind
  have hbv : bind_vao o.ctxt vao.id = Except.ok (o.ctxt, []) := by
    unfold bind_vao
    rw [if_neg (not_not_intro hstate)]
  unfold Binder.bind
  dsimp only
  rw [hfind]
  dsimp only
  rw [hbv]

theorem c1_witness :
    Binder.bind [(([1, 2, 3], 7), ⟨10, false⟩)]
        ⟨⟨Api.Gl, 3, 3⟩, ⟨true, false, false, true⟩, ⟨10, 2⟩, 11⟩
        ⟨⟨7, []⟩, 3, [(2, [], 4, none), (1, [], 4, none)]⟩ =
      Except.ok ⟨[(([1, 2, 3], 7), ⟨10, false⟩)],
        ⟨⟨Api.Gl, 3, 3⟩, ⟨true, false, false, true⟩, ⟨10, 2⟩, 11⟩, []⟩ :=
  (c1_key_and_reuse [] ⟨⟨Api.Gl, 3, 3⟩, ⟨true, false, false, true⟩, ⟨0, 0⟩, 10⟩
      ⟨⟨7, []⟩, 3, [(1, [], 4, none), (2, [], 4, none)]⟩
      ⟨⟨7, []⟩, 3, [(2, [], 4, none), (1, [], 4, none)]⟩
      (by decide) rfl rfl).2
    ⟨[(([1, 2, 3], 7), ⟨10, false⟩)],
     ⟨⟨Api.Gl, 3, 3⟩, ⟨true, false, false, true⟩, ⟨10, 2⟩, 11⟩,
     [GLCall.genVertexArrays VaoTier.baseline 10,
      GLCall.bindVertexArray VaoTier.baseline 10,
      GLCall.bindBuffer BufTier.core gl.ELEMENT_ARRAY_BUFFER 3,
      GLCall.bindBuffer BufTier.core gl.ARRAY_BUFFER 1,
      GLCall.bindBuffer BufTier.core gl.ARRAY_BUFFER 2]⟩ (by decide)

theorem destroy_ok_delete (v : VertexArrayObject) (ctxt : CommandContext)
    (v' : VertexArrayObject) (c : CommandContext) (calls : List GLCall)
    (h : VertexArrayObject.destroy v ctxt = Except.ok (v', c, calls)) :
    ∃ t, GLCall.deleteVertexArrays t v.id ∈ calls := by
  unfold VertexArrayObject.destroy at h
  dsimp only at h
  by_cases hact : ctxt.state.vertex_array = v.id
  · rw [if_pos hact] at h
    cases hbv : bind_vao ctxt 0 <;> rw [hbv] at h
    · cases h
    · rename_i res
      obtain ⟨cc, cl⟩ := res
      dsimp only at h
      cases hvt : chooseVaoTier
          { cc with state := { cc.state with vertex_array := 0 } } <;> rw [hvt] at h
      · dsimp only at h
        cases h
      · dsimp only at h
        cases h
        rename_i t
        exact ⟨t, by simp⟩
  · rw [if_neg hact] at h
    dsimp only at h
    cases hvt : chooseVaoTier ctxt <;> rw [hvt] at h
    · dsimp only at h
      cases h
    · dsimp only at h
      cases h
      rename_i t
      exact ⟨t, by simp⟩

theorem destroyList_deletes :
    ∀ (l : List (VaoKey × VertexArrayObject)) (ctxt c : CommandContext)
      (calls : List GLCall),
      destroyList ctxt l = Except.ok (c, calls) →
      ∀ e ∈ l, ∃ t, GLCall.deleteVertexArrays t e.2.id ∈ calls := by
  intro l
  induction l with
  | nil =>
      intro ctxt c calls h e he
      cases he
  | cons hd rest ih =>
      intro ctxt c calls h e he
      unfold destroyList at h
      obtain ⟨k, v⟩ := hd
      dsimp only at h
      cases hd1 : v.destroy ctxt <;> rw [hd1] at h
      · cases h
      · rename_i res
        obtain ⟨v', ctxt1, calls1⟩ := res
        dsimp only at h
        cases hr : destroyList ctxt1 rest <;> rw [hr] at h
        · rename_i e2
          obtain ⟨p, calls2⟩ := e2
          dsimp only at h
          cases h
        · rename_i res2
          obtain ⟨ctxt2, calls2⟩ := res2
          dsimp only at h
          cases h
          rcases List.mem_cons.mp he with heq | hmem
          · subst heq
            obtain ⟨t, ht⟩ := destroy_ok_delete v ctxt v' ctxt1 calls1 hd1
            exact ⟨t, List.mem_append_left _ ht⟩
          · obtain ⟨t, ht⟩ := ih _ _ _ hr e hmem
            exact ⟨t, List.mem_append_right _ ht⟩

/-- C2: after `purge_buffer X` no cache entry whose key's buffer-id list
contains `X` remains and every removed entry was destroyed (its handle
deleted); any key containing `X` therefore misses, so a subsequent finalize
whose request includes buffer `X` constructs a new resource (its trace
contains a handle-allocation call). Likewise after `purge_program P` no entry
with program identity `P` remains. -/
theorem c2_purge_invalidation (ctxt : CommandContext) (sys : VaoMap) (X P : Nat) :
    (∀ ctxt' sys' calls, purge_buffer ctxt sys X = Except.ok (ctxt', sys', calls) →
      (∀ e ∈ sys', X ∉ e.1.1) ∧
      (∀ e ∈ sys, X ∈ e.1.1 → ∃ t, GLCall.deleteVertexArrays t e.2.id ∈ calls) ∧
      (∀ key : VaoKey, X ∈ key.1 → cacheFind sys' key = none) ∧
      (∀ (ctxt2 : CommandContext) (b : Binder) (o : BindOutcome),
        X ∈ b.vertex_buffers.map (·.1) ++ [b.element_array_buffer] →
        Binder.bind sys' ctxt2 b = Except.ok o →
        ∃ t i, GLCall.genVertexArrays t i ∈ o.calls)) ∧
    (∀ ctxt' sys' calls, purge_program ctxt sys P = Except.ok (ctxt', sys', calls) →
      ∀ e ∈ sys', e.1.2 ≠ P) := by
  constructor
  · intro ctxt' sys' calls h
    unfold purge_buffer purge_if at h
    dsimp only at h
    cases hd : destroyList ctxt
        (sys.filter (fun e => e.1.1.any (fun b => decide (b = X)))) <;> rw [hd] at h
    · cases h
    · rename_i res
      obtain ⟨c1, cl⟩ := res
      dsimp only at h
      cases h
      have hkept : ∀ e ∈ sys.filter
          (fun e => ! e.1.1.any (fun b => decide (b = X))), X ∉ e.1.1 := by
        intro e he hx
        have := List.of_mem_filter he
        rw [Bool.not_eq_true'] at this
        rw [← Bool.not_eq_true] at this
        apply this
        rw [List.any_eq_true]
        exact ⟨X, hx, by simp⟩
      refine ⟨hkept, ?_, ?_, ?_⟩
      · intro e he hx
        refine destroyList_deletes _ ctxt _ _ hd e ?_
        rw [List.mem_filter]
        refine ⟨he, ?_⟩
        rw [List.any_eq_true]
        exact ⟨X, hx, by simp⟩
      · intro key hx
        cases hcf : cacheFind (sys.filter
            (fun e => ! e.1.1.any (fun b => decide (b = X)))) key
        · rfl
        · rename_i v
          exfalso
          unfold cacheFind at hcf
          cases hf : List.find? (fun e => decide (e.1 = key))
              (sys.filter (fun e => ! e.1.1.any (fun b => decide (b = X)))) <;>
            rw [hf] at hcf
          · cases hcf
          · rename_i entry
            have hmem := List.mem_of_find?_eq_some hf
            have hpred := List.find?_some hf
            rw [decide_eq_true_iff] at hpred
            exact hkept entry hmem (hpred ▸ hx)
      · intro ctxt2 b o hxb ho
        have hxkey : X ∈ (bindKey b).1 := by
          unfold bindKey
          exact (List.perm_insertionSort (· ≤ ·) _).mem_iff.mpr hxb
        have hmiss : cacheFind (sys.filter
            (fun e => ! e.1.1.any (fun b => decide (b = X)))) (bindKey b) = none := by
          cases hcf : cacheFind (sys.filter
              (fun e => ! e.1.1.any (fun b => decide (b = X)))) (bindKey b)
          · rfl
          · rename_i v
            exfalso
            unfold cacheFind at hcf
            cases hf : List.find? (fun e => decide (e.1 = bindKey b))
                (sys.filter (fun e => ! e.1.1.any (fun b => decide (b = X)))) <;>
              rw [hf] at hcf
            · cases hcf
            · rename_i entry
              have hmem := List.mem_of_find?_eq_some hf
              have hpred := List.find?_some hf
              rw [decide_eq_true_iff] at hpred
              exact hkept entry hmem (hpred ▸ hxkey)
        unfold Binder.bind at ho
        dsimp only at ho
        rw [hmiss] at ho
        dsimp only at ho
        cases hnew : VertexArrayObject.new ctxt2 b.vertex_buffers
            b.element_array_buffer b.program <;> rw [hnew] at ho
        · cases ho
        · rename_i res
          obtain ⟨vao, c2, calls1⟩ := res
          obtain ⟨-, -, t, c3, calls3, bt, c4, calls4, -, -, -, -, -, -, hcalls⟩ :=
            new_ok_shape ctxt2 b.vertex_buffers b.element_array_buffer b.program
              vao c2 calls1 hnew
          dsimp only at ho
          cases hbv : bind_vao c2 vao.id <;> rw [hbv] at ho
          · rename_i e2
            obtain ⟨p, c5⟩ := e2
            dsimp only at ho
            cases ho
          · rename_i res2
            obtain ⟨c5, calls5⟩ := res2
            dsimp only at ho
            cases ho
            refine ⟨t, ctxt2.next_id, ?_⟩
            dsimp only
            rw [hcalls]
            exact List.mem_append_left _ (List.mem_cons_self _ _)
  · intro ctxt' sys' calls h
    unfold purge_program purge_if at h
    dsimp only at h
    cases hd : destroyList ctxt
        (sys.filter (fun e => decide (e.1.2 = P))) <;> rw [hd] at h
    · cases h
    · rename_i res
      obtain ⟨c1, cl⟩ := res
      dsimp only at h
      cases h
      intro e he heq
      have := List.of_mem_filter he
      rw [Bool.not_eq_true'] at this
      rw [decide_eq_false_iff_not] at this
      exact this heq

theorem c2_witness :
    (∀ e ∈ ([(([2, 3], 7), ⟨10, false⟩)] : VaoMap), 5 ∉ e.1.1) ∧
    (∀ e ∈ ([(([1, 5], 7), ⟨9, false⟩), (([2, 3], 7), ⟨10, false⟩)] : VaoMap),
      5 ∈ e.1.1 → ∃ t, GLCall.deleteVertexArrays t e.2.id ∈
        [GLCall.deleteVertexArrays VaoTier.baseline 9]) ∧
    (∀ key : VaoKey, 5 ∈ key.1 →
      cacheFind [(([2, 3], 7), ⟨10, false⟩)] key = none) ∧
    (∀ (ctxt2 : CommandContext) (b : Binder) (o : BindOutcome),
      5 ∈ b.vertex_buffers.map (·.1) ++ [b.element_array_buffer] →
      Binder.bind [(([2, 3], 7), ⟨10, false⟩)] ctxt2 b = Except.ok o →
      ∃ t i, GLCall.genVertexArrays t i ∈ o.calls) :=
  (c2_purge_invalidation ⟨⟨Api.Gl, 3, 3⟩, ⟨true, false, false, true⟩, ⟨0, 0⟩, 20⟩
      [(([1, 5], 7), ⟨9, false⟩), (([2, 3], 7), ⟨10, false⟩)] 5 7).1
    ⟨⟨Api.Gl, 3, 3⟩, ⟨true, false, false, true⟩, ⟨0, 0⟩, 20⟩
    [(([2, 3], 7), ⟨10, false⟩)]
    [GLCall.deleteVertexArrays VaoTier.baseline 9] rfl

theorem findSome?_congr {α β : Type} (f g : α → Option β) (l : List α)
    (h : ∀ x ∈ l, f x = g x) : l.findSome? f = l.findSome? g := by
  induction l with
  | nil => rfl
  | cons a t ih =>
      rw [List.findSome?_cons, List.findSome?_cons, h a (List.mem_cons_self a t)]
      cases g a
      · exact ih (fun x hx => h x (List.mem_cons_of_mem a hx))
      · rfl

theorem get_attribute_none (program : Program) (s : String)
    (h : program.get_attribute s = none) : ∀ x ∈ program.attributes, x.1 ≠ s := by
  unfold Program.get_attribute at h
  cases hf : program.attributes.find? (fun e => decide (e.1 = s)) <;> rw [hf] at h
  · intro x hx
    have := List.find?_eq_none.mp hf x hx
    simpa using this
  · cases h

theorem typecheckFormat_skip (program : Program) (fmt1 fmt2 : VertexFormat)
    (e : String × Nat × AttributeType) (he : attribute_check program e = none) :
    typecheckFormat program (fmt1 ++ e :: fmt2) =
    typecheckFormat program (fmt1 ++ fmt2) := by
  unfold typecheckFormat
  simp [List.findSome?_append, List.findSome?_cons, he]

theorem typecheckBuffers_skip (program : Program) (id str : Nat) (dv : Option Nat)
    (fmt1 fmt2 : VertexFormat) (e : String × Nat × AttributeType)
    (pre post : List (Nat × VertexFormat × Nat × Option Nat))
    (he : attribute_check program e = none) :
    typecheckBuffers program (pre ++ (id, fmt1 ++ e :: fmt2, str, dv) :: post) =
    typecheckBuffers program (pre ++ (id, fmt1 ++ fmt2, str, dv) :: post) := by
  unfold typecheckBuffers
  simp only [List.findSome?_append, List.findSome?_cons]
  rw [show typecheckFormat program (fmt1 ++ e :: fmt2) =
        typecheckFormat program (fmt1 ++ fmt2) from
      typecheckFormat_skip program fmt1 fmt2 e he]

theorem missing_check_skip (program : Program) (id str : Nat) (dv : Option Nat)
    (fmt1 fmt2 : VertexFormat) (e : String × Nat × AttributeType)
    (pre post : List (Nat × VertexFormat × Nat × Option Nat))
    (he : program.get_attribute e.1 = none) :
    missing_check program (pre ++ (id, fmt1 ++ e :: fmt2, str, dv) :: post) =
    missing_check program (pre ++ (id, fmt1 ++ fmt2, str, dv) :: post) := by
  unfold missing_check
  apply findSome?_congr
  intro na hna
  have hne : e.1 ≠ na.1 := fun heq => get_attribute_none program e.1 he na hna heq.symm
  have hcond : (pre ++ (id, fmt1 ++ e :: fmt2, str, dv) :: post).any
        (fun vb => vb.2.1.any (fun x => decide (x.1 = na.1))) =
      (pre ++ (id, fmt1 ++ fmt2, str, dv) :: post).any
        (fun vb => vb.2.1.any (fun x => decide (x.1 = na.1))) := by
    simp [List.any_append, List.any_cons, hne]
  rw [hcond]

theorem bufferCalls_skip (program : Program) (ctxt : CommandContext) (id str : Nat)
    (dv : Option Nat) (fmt1 fmt2 : VertexFormat) (e : String × Nat × AttributeType)
    (he : entryCalls program str dv e = []) :
    bufferCalls program ctxt (id, fmt1 ++ e :: fmt2, str, dv) =
    bufferCalls program ctxt (id, fmt1 ++ fmt2, str, dv) := by
  unfold bufferCalls
  dsimp only
  rw [show (fmt1 ++ e :: fmt2).flatMap (entryCalls program str dv) =
        (fmt1 ++ fmt2).flatMap (entryCalls program str dv) by
      simp [List.flatMap_append, List.flatMap_cons, he]]

theorem buffersCalls_skip (program : Program) (id str : Nat) (dv : Option Nat)
    (fmt1 fmt2 : VertexFormat) (e : String × Nat × AttributeType)
    (he : entryCalls program str dv e = []) :
    ∀ (pre : List (Nat × VertexFormat × Nat × Option Nat)) (ctxt : CommandContext)
      (post : List (Nat × VertexFormat × Nat × Option Nat)),
      buffersCalls program ctxt (pre ++ (id, fmt1 ++ e :: fmt2, str, dv) :: post) =
      buffersCalls program ctxt (pre ++ (id, fmt1 ++ fmt2, str, dv) :: post) := by
  intro pre
  induction pre with
  | nil =>
      intro ctxt post
      rw [List.nil_append, List.nil_append]
      unfold buffersCalls
      rw [bufferCalls_skip program ctxt id str dv fmt1 fmt2 e he]
  | cons vb rest ih =>
      intro ctxt post
      rw [List.cons_append, List.cons_append]
      unfold buffersCalls
      cases hbc : bufferCalls program ctxt vb <;> dsimp only
      rename_i res
      rw [ih res.1 post]

/-- C10: a layout entry whose attribute name the program does not declare is
silently skipped — it is exempt from the type check and produces no
attribute-pointer, divisor, or enable call, and inserting such an entry into
any vertex source leaves the entire construction (`VertexArrayObject::new`)
unchanged; likewise an attribute whose reported location is the `-1` sentinel
passes validation but receives no binding calls. -/
theorem c10_extra_and_unlocated_attributes (program : Program) :
    (∀ (stride : Nat) (divisor : Option Nat) (entry : String × Nat × AttributeType),
      program.get_attribute entry.1 = none →
      attribute_check program entry = none ∧
      entryCalls program stride divisor entry = []) ∧
    (∀ (stride : Nat) (divisor : Option Nat) (entry : String × Nat × AttributeType)
      (a : Attribute),
      program.get_attribute entry.1 = some a → a.location = -1 →
      entryCalls program stride divisor entry = [] ∧
      (entry.2.2.get_num_components = a.ty.get_num_components → a.size = 1 →
        attribute_check program entry = none)) ∧
    (∀ (ctxt : CommandContext)
      (pre post : List (Nat × VertexFormat × Nat × Option Nat))
      (id str : Nat) (dv : Option Nat) (fmt1 fmt2 : VertexFormat)
      (e : String × Nat × AttributeType) (ib : Nat),
      program.get_attribute e.1 = none →
      VertexArrayObject.new ctxt (pre ++ (id, fmt1 ++ e :: fmt2, str, dv) :: post)
          ib program =
      VertexArrayObject.new ctxt (pre ++ (id, fmt1 ++ fmt2, str, dv) :: post)
          ib program) := by
  refine ⟨?_, ?_, ?_⟩
  · intro stride divisor entry hga
    constructor
    · unfold attribute_check
      rw [hga]
    · unfold entryCalls
      rw [hga]
  · intro stride divisor entry a hga hloc
    constructor
    · unfold entryCalls
      rw [hga]
      simp [hloc]
    · intro h1 h2
      unfold attribute_check
      rw [hga]
      simp [h1, h2]
  · intro ctxt pre post id str dv fmt1 fmt2 e ib he
    have hac : attribute_check program e = none := by
      unfold attribute_check
      rw [he]
    have hentry : entryCalls program str dv e = [] := by
      unfold entryCalls
      rw [he]
    unfold VertexArrayObject.new
    simp only [typecheckBuffers_skip program id str dv fmt1 fmt2 e pre post hac,
               missing_check_skip program id str dv fmt1 fmt2 e pre post he,
               buffersCalls_skip program id str dv fmt1 fmt2 e hentry]

theorem c10_witness :
    (attribute_check ⟨7, [("p", ⟨-1, AttributeType.F32, 1⟩)]⟩
        ("x", 0, AttributeType.F32) = none ∧
     entryCalls ⟨7, [("p", ⟨-1, AttributeType.F32, 1⟩)]⟩ 4 none
        ("x", 0, AttributeType.F32) = []) ∧
    entryCalls ⟨7, [("p", ⟨-1, AttributeType.F32, 1⟩)]⟩ 4 none
        ("p", 0, AttributeType.F32) = [] ∧
    VertexArrayObject.new ⟨⟨Api.Gl, 3, 3⟩, ⟨true, false, false, true⟩, ⟨0, 0⟩, 10⟩
        ([] ++ (1, [("p", 0, AttributeType.F32)] ++
          ("x", 4, AttributeType.F32) :: [], 4, none) :: []) 2
        ⟨7, [("p", ⟨-1, AttributeType.F32, 1⟩)]⟩ =
      VertexArrayObject.new ⟨⟨Api.Gl, 3, 3⟩, ⟨true, false, false, true⟩, ⟨0, 0⟩, 10⟩
        ([] ++ (1, [("p", 0, AttributeType.F32)] ++ [], 4, none) :: []) 2
        ⟨7, [("p", ⟨-1, AttributeType.F32, 1⟩)]⟩ :=
  ⟨(c10_extra_and_unlocated_attributes ⟨7, [("p", ⟨-1, AttributeType.F32, 1⟩)]⟩).1
      4 none ("x", 0, AttributeType.F32) (by decide),
   ((c10_extra_and_unlocated_attributes ⟨7, [("p", ⟨-1, AttributeType.F32, 1⟩)]⟩).2.1
      4 none ("p", 0, AttributeType.F32) ⟨-1, AttributeType.F32, 1⟩
      (by decide) rfl).1,
   (c10_extra_and_unlocated_attributes ⟨7, [("p", ⟨-1, AttributeType.F32, 1⟩)]⟩).2.2
      ⟨⟨Api.Gl, 3, 3⟩, ⟨true, false, false, true⟩, ⟨0, 0⟩, 10⟩ [] [] 1 4 none
      [("p", 0, AttributeType.F32)] [] ("x", 4, AttributeType.F32) 2 (by decide)⟩

end Glium
